import Mathlib

/-!
# Verification of kitsch-prompt core components

This file gives a shallow embedding, in Lean 4, of the core components of the
kitsch-prompt repository:

* the git status parser (`internal/gitutils/status.go`): `GitStats`,
  `GitFileStats`, `countStats` and the streaming writer `statusWriter.Write`;
* the module executor (`internal/modules`, `executeModule` and friends):
  `ModuleResult`, `CommonConfig`, `TemplateData`, `Globals`, `Context`;
* the username module (`internal/kitsch/modules/username.go`);
* the directory-listing extension query `HasExtension` (`internal/fileutils`,
  modelled from the spec; only its tests are in the sources).

Go machine bytes are modelled as `Nat` (counters only ever increment, so no
overflow arithmetic is needed); Go slices of bytes as `List Nat`; Go errors as
`Option String`; side-effecting diagnostics (`Environment.Warn`, `fmt.Printf`)
as explicitly returned lists of messages.
-/

/-! ## Git status parser (`internal/gitutils/status.go`) -/

/-- `GitFileStats` contains counts of files in the index or in the work tree.
Mirrors `gitutils.GitFileStats`. -/
structure GitFileStats where
  added : Nat
  modified : Nat
  deleted : Nat
deriving DecidableEq, Repr

instance : Inhabited GitFileStats := ⟨⟨0, 0, 0⟩⟩

/-- `GitStats` represents counts about files in the index, in the work tree,
and unmerged files.  Mirrors `gitutils.GitStats`. -/
structure GitStats where
  index : GitFileStats
  files : GitFileStats
  unmerged : Nat
deriving DecidableEq, Repr

instance : Inhabited GitStats := ⟨⟨default, default, 0⟩⟩

/-- `countStats` increments one counter of `stats` according to the status
letter `x`.  Mirrors `gitutils.countStats` (a `switch` on `'M'`, `'A'`, `'D'`,
`'R'`, `'C'`; any other byte leaves the counters unchanged). -/
def countStats (stats : GitFileStats) (x : Nat) : GitFileStats :=
  if x = 'M'.toNat then { stats with modified := stats.modified + 1 }
  else if x = 'A'.toNat then { stats with added := stats.added + 1 }
  else if x = 'D'.toNat then { stats with deleted := stats.deleted + 1 }
  else if x = 'R'.toNat then { stats with modified := stats.modified + 1 }
  else if x = 'C'.toNat then { stats with modified := stats.modified + 1 }
  else stats

/-- The classification applied by `statusWriter.Write` when it has both status
letters of a record in hand (the body of the `linePos == 1` branch):
unmerged, untracked, or tracked (index letter and worktree letter counted
separately via `countStats`). -/
def classify (stats : GitStats) (x y : Nat) : GitStats :=
  if (x = 'D'.toNat ∧ y = 'D'.toNat) ∨ (x = 'A'.toNat ∧ y = 'A'.toNat)
      ∨ x = 'U'.toNat ∨ y = 'U'.toNat then
    { stats with unmerged := stats.unmerged + 1 }
  else if x = '?'.toNat then
    { stats with files := { stats.files with added := stats.files.added + 1 } }
  else
    { stats with index := countStats stats.index x, files := countStats stats.files y }

/-- The persistent state of the status parser.  Mirrors `gitutils.statusWriter`:
`linePos` is the position within the current record; `stats` the counters
accumulated so far.  (The first status letter `x` is *not* a field: in the Go
code it is a local variable of `Write`.) -/
structure statusWriter where
  linePos : Nat
  stats : GitStats
deriving DecidableEq, Repr

instance : Inhabited statusWriter := ⟨⟨0, default⟩⟩

/-- The loop body of `statusWriter.Write`, iterated once per byte `b` of the
input slice.  `x` is the local variable holding the first status letter; the
function returns the updated writer state together with the updated `x`. -/
def writeStep (status : statusWriter) (x : Nat) (b : Nat) : statusWriter × Nat :=
  if status.linePos = 0 then
    ({ status with linePos := status.linePos + 1 }, b)
  else if status.linePos = 1 then
    ({ linePos := status.linePos + 1, stats := classify status.stats x b }, x)
  else if b = 0 then
    ({ status with linePos := 0 }, x)
  else
    ({ status with linePos := status.linePos + 1 }, x)

/-- The loop of `statusWriter.Write`, in indexed form faithful to the Go
`for i = 0; i < len(p); i++` loop: every access `p[i]` carries a proof that
`i` is in bounds. -/
def WriteAux (status : statusWriter) (x : Nat) (p : List Nat) (i : Nat) : statusWriter :=
  if h : i < p.length then
    let st2 := writeStep status x (p.get ⟨i, h⟩)
    WriteAux st2.1 st2.2 p (i + 1)
  else
    status
termination_by p.length - i

/-- `statusWriter.Write` parses a chunk `p` of the output of the status
command and counts files into the writer's `GitStats`.  It returns the updated
writer, the number of bytes consumed `n`, and the error (`none` = Go `nil`).
The local variable `x` starts each call zero-initialised (`var x byte`). -/
def statusWriter.Write (status : statusWriter) (p : List Nat) :
    statusWriter × Nat × Option String :=
  (WriteAux status 0 p 0, p.length, none)

/-- Byte-list form of the `Write` loop: fold `writeStep` over the bytes,
threading the writer state and the local `x`. -/
def writeLoop : statusWriter → Nat → List Nat → statusWriter
  | status, _, [] => status
  | status, x, b :: rest =>
      let st2 := writeStep status x b
      writeLoop st2.1 st2.2 rest

/-- Feed a sequence of chunks to a writer via successive `Write` calls. -/
def writeChunks (status : statusWriter) (chunks : List (List Nat)) : statusWriter :=
  chunks.foldl (fun st c => (st.Write c).1) status

/-- The bytes of a string, as `git status -z` output is consumed byte-wise. -/
def strToBytes (s : String) : List Nat :=
  s.data.map Char.toNat

/-- Sum of the three counters of a `GitFileStats`. -/
def GitFileStats.total (s : GitFileStats) : Nat :=
  s.added + s.modified + s.deleted

/-- Sum of all counters of a `GitStats`: all `Index` counters, all `Files`
counters, and `Unmerged`. -/
def GitStats.total (s : GitStats) : Nat :=
  s.index.total + s.files.total + s.unmerged

/-- One well-formed status record `<x><y><path>\0`: two status letters
followed by the path bytes and the NUL terminator.  (The space between the
letters and the path is part of `path` here; the parser skips all bytes after
the second letter until the NUL.) -/
def record (x y : Nat) (path : List Nat) : List Nat :=
  x :: y :: path ++ [0]

/-- Encode a list of records into a single status stream. -/
def encodeRecords (rs : List (Nat × Nat × List Nat)) : List Nat :=
  rs.foldr (fun r acc => record r.1 r.2.1 r.2.2 ++ acc) []

/-- Number of complete records in a byte stream: one per NUL terminator. -/
def countRecords (p : List Nat) : Nat :=
  p.countP (· = 0)

/-! ## Styling, templates and the module executor (`internal/modules`) -/

/-- A foreground/background colour pair; the Go zero value (both fields empty)
is the "unset" pair.  Mirrors `styling.CharacterColors` (modelled from the
spec: the styling package itself is not among the sources). -/
structure CharacterColors where
  fg : String
  bg : String
deriving DecidableEq, Repr

/-- The Go zero value of `CharacterColors`: colours unset. -/
def CharacterColors.unset : CharacterColors := ⟨"", ""⟩

/-- Modelled from the spec: a resolved style is a pure decorator
`apply(style, text) -> (decoratedText, startColor, endColor)`
(spec §4.4); the styling package is not among the sources. -/
structure Style where
  applyGetColors : String → String × CharacterColors × CharacterColors

/-- Modelled from the spec: the style registry resolves a name to a style
pointer plus an error, lookup never crashes (spec §4.4); the styling package
is not among the sources.  `get name = (style?, err?)` mirrors the Go
signature `Get(name) (style *Style, err error)`. -/
structure Registry where
  get : String → Option Style × Option String

/-- Globals passed to all modules.  Mirrors `modules.Globals`; the
root-privilege flag `IsRoot` is listed in the spec's data model and read by
the username module. -/
structure Globals where
  CWD : String
  Home : String
  Username : String
  UserFullName : String
  Hostname : String
  Status : Int
  PreviousCommandDuration : Int
  Keymap : String
  IsRoot : Bool

/-- Modelled from the spec: the Environment exposes environment-variable
lookups (`Getenv` resolves missing variables to the empty string, spec §4.1)
and the OS user lookup used by `usernameModuleData.Username`; the env package
is not among the sources. -/
structure Env where
  vars : List (String × String)
  currentUser : Option String

/-- `Getenv` resolves a variable, yielding `""` when it is missing. -/
def Env.Getenv (e : Env) (name : String) : String :=
  match e.vars.lookup name with
  | some v => v
  | none => ""

/-- `HasSomeEnv` reports whether at least one of the named variables is set
(resolves to a non-empty value). -/
def Env.HasSomeEnv (e : Env) (names : List String) : Bool :=
  names.any (fun n => e.Getenv n ≠ "")

/-- `TemplateData` is the common data passed to a template when it is
executed.  Mirrors `modules.TemplateData`; the payload `Data` (Go
`interface\x7b\x7d`) is a type parameter. -/
structure TemplateData (α : Type) where
  Text : String
  Data : α
  Global : Globals

/-- Modelled from the spec: the template renderer compiles a per-module
template string deterministically into either a compile error or an
evaluation function, and evaluation either fails recoverably or produces a
string (spec §4.5); the modtemplate package is not among the sources. -/
structure TemplateEngine (α : Type) where
  CompileTemplate : String → Except String (TemplateData α → Except String String)

/-- `CommonConfig` is common configuration for all modules.  Mirrors
`modules.CommonConfig`. -/
structure CommonConfig where
  Style : String
  Template : String

/-- `ModuleResult` is the output of one module evaluation.  Mirrors
`modules.ModuleResult`. -/
structure ModuleResult (α : Type) where
  Text : String
  Data : α
  StartStyle : CharacterColors
  EndStyle : CharacterColors

/-- The diagnostics emitted while executing a module: warnings sent through
`Environment.Warn`, and messages printed directly (the compile-error path of
`executeModule` uses `fmt.Printf`). -/
structure ExecLog where
  warnings : List String
  printed : List String
deriving DecidableEq, Repr

/-- `Context` is the set of common parameters passed to `Module.Execute`.
Mirrors `modules.Context`; the extra field `modtemplate` stands for the
template-renderer collaborator (a package in Go, passed explicitly here). -/
structure Context (α : Type) where
  Environment : Env
  Styles : Registry
  Globals : Globals
  modtemplate : TemplateEngine α

/-- `executeModule` handles the common work of every module: resolve the
style (on error: warn and continue with no style), run the configured
template if any (compile error: print and keep the default text; evaluation
error: warn and fall back to the default text), then apply the style to
non-empty text capturing boundary colours.  Mirrors `modules.executeModule`;
side effects are returned as an `ExecLog`. -/
def executeModule {α : Type} (context : Context α) (config : CommonConfig)
    (data : α) (styleStr : String) (defaultText : String) :
    ModuleResult α × ExecLog :=
  let styleRes := context.Styles.get styleStr
  let style : Option Style := if styleRes.2.isSome then none else styleRes.1
  let styleWarnings : List String :=
    match styleRes.2 with
    | some e => [e]
    | none => []
  let tmplRes : String × List String × List String :=
    if config.Template ≠ "" then
      match context.modtemplate.CompileTemplate config.Template with
      | .error e => (defaultText, [], ["Error compiling template: " ++ e])
      | .ok tmpl =>
        match tmpl { Data := data, Global := context.Globals, Text := defaultText } with
        | .error e =>
            (defaultText,
             ["Error executing template:\n" ++ config.Template ++ "\n" ++ e], [])
        | .ok s => (s, [], [])
    else
      (defaultText, [], [])
  let text := tmplRes.1
  let applied : String × CharacterColors × CharacterColors :=
    match style with
    | some st =>
        if text ≠ "" then st.applyGetColors text
        else (text, CharacterColors.unset, CharacterColors.unset)
    | none => (text, CharacterColors.unset, CharacterColors.unset)
  ({ Text := applied.1, Data := data,
     StartStyle := applied.2.1, EndStyle := applied.2.2 },
   { warnings := styleWarnings ++ tmplRes.2.1, printed := tmplRes.2.2 })

/-- The style `executeModule` works with after the resolution step: the
registry's answer, with a lookup error forcing `nil` (the first lines of
`executeModule`). -/
def resolvedStyle {α : Type} (context : Context α) (styleStr : String) : Option Style :=
  if (context.Styles.get styleStr).2.isSome then none
  else (context.Styles.get styleStr).1

/-- The template phase of `executeModule`: the text it settles on (the
template output, or the default text when no template is configured or the
template fails), together with the warnings and printed messages of that
phase. -/
def templatePhase {α : Type} (context : Context α) (config : CommonConfig)
    (data : α) (defaultText : String) : String × List String × List String :=
  if config.Template ≠ "" then
    match context.modtemplate.CompileTemplate config.Template with
    | .error e => (defaultText, [], ["Error compiling template: " ++ e])
    | .ok tmpl =>
      match tmpl { Data := data, Global := context.Globals, Text := defaultText } with
      | .error e =>
          (defaultText,
           ["Error executing template:\n" ++ config.Template ++ "\n" ++ e], [])
      | .ok s => (s, [], [])
  else
    (defaultText, [], [])

/-! ## The username module (`internal/kitsch/modules/username.go`) -/

/-- Configuration of the username module.  Mirrors `modules.UsernameModule`
(an embedded `CommonConfig`, plus `ShowAlways` and `RootStyle`). -/
structure UsernameModule where
  CommonConfig : CommonConfig
  ShowAlways : Bool
  RootStyle : String

/-- Template payload of the username module.  Mirrors
`modules.usernameModuleData`. -/
structure usernameModuleData where
  username : String
  IsRoot : Bool
  IsSSH : Bool
  Show : Bool
deriving DecidableEq, Repr

/-- `Username` returns the username carried by the data when non-empty, and
otherwise falls back to the OS user lookup (`user.Current()` in Go, passed
here as `osUser`; a failed lookup yields `""`).  Mirrors
`usernameModuleData.Username`. -/
def usernameModuleData.Username (data : usernameModuleData)
    (osUser : Option String) : String :=
  if data.username ≠ "" then data.username
  else
    match osUser with
    | some u => u
    | none => ""

/-- Execute the username module: compute `isRoot`, `isSSH` and the `show`
flag, build the template payload, choose the default text (the username when
shown, otherwise empty) and the style (`RootStyle` replaces `Style` for a
root user when non-empty), and hand off to `executeModule`.  Mirrors
`UsernameModule.Execute`. -/
def UsernameModule.Execute (mod : UsernameModule)
    (context : Context usernameModuleData) :
    ModuleResult usernameModuleData × ExecLog :=
  let isRoot := context.Globals.IsRoot
  let isSSH := context.Environment.HasSomeEnv
    ["SSH_CLIENT", "SSH_CONNECTION", "SSH_TTY"]
  let shown := isSSH || isRoot || mod.ShowAlways
  let data : usernameModuleData :=
    { username := context.Environment.Getenv "USER",
      IsRoot := isRoot, IsSSH := isSSH, Show := shown }
  let defaultText :=
    if shown then data.Username context.Environment.currentUser else ""
  let style :=
    if shown && (isRoot && mod.RootStyle != "") then mod.RootStyle
    else mod.CommonConfig.Style
  executeModule context mod.CommonConfig data style defaultText

/-! ## Directory extension queries (`internal/fileutils`) -/

/-- Modelled from the spec: a single file name `name` has extension `e`
(written without its leading dot) when `name` ends in `"." ++ e` and the stem
before that suffix is non-empty — so a dotfile such as `.gitignore` has no
extension.  Matching is case-sensitive.  The fileutils implementation is not
among the sources (only its tests are). -/
def fileHasExtension (name e : String) : Bool :=
  ('.' :: e.data).isSuffixOf name.data && e.data.length + 1 < name.data.length

/-- Strip the optional leading dot off an extension argument. -/
def stripDot (ext : String) : String :=
  match ext.data with
  | '.' :: rest => ⟨rest⟩
  | _ => ext

/-- Modelled from the spec: `Directory.HasExtension(ext)` answers whether the
cached directory listing contains a file with extension `ext`, accepting the
argument with or without a leading dot and matching both single and compound
suffixes case-sensitively.  The directory is modelled by its listing, a list
of entry names. -/
def HasExtension (files : List String) (ext : String) : Bool :=
  files.any (fun name => fileHasExtension name (stripDot ext))

/-! ## Concrete fixtures used by witnesses and counterexamples -/

/-- The template source consisting of exactly the text interpolation
`\x7b\x7b.Text\x7d\x7d`. -/
def textTemplateSrc : String := "\x7b\x7b.Text\x7d\x7d"

/-- Modelled from the spec: a template engine satisfying the round-trip law —
the template source `textTemplateSrc` compiles to the evaluation that returns
the data's `Text` field; every other source is a compile error. -/
def specTemplateEngine (α : Type) : TemplateEngine α :=
  ⟨fun src =>
    if src = textTemplateSrc then .ok (fun d => .ok d.Text)
    else .error "unknown action"⟩

/-- A template engine with no valid templates: every source is a compile
error. -/
def failingTemplateEngine (α : Type) : TemplateEngine α :=
  ⟨fun _ => .error "compile failed"⟩

/-- A registry that resolves no style names: every lookup is an error. -/
def emptyRegistry : Registry :=
  ⟨fun name => (none, some ("unknown style " ++ name))⟩

/-- A registry with no custom styles where every lookup succeeds with no
style (the Go `nil, nil` case). -/
def nilRegistry : Registry :=
  ⟨fun _ => (none, none)⟩

/-- A concrete style fixture: wraps the text in markers and reports red
boundary colours. -/
def redStyle : Style :=
  ⟨fun t => ("<red>" ++ t ++ "</red>", ⟨"red", ""⟩, ⟨"red", ""⟩)⟩

/-- A registry resolving every name to `redStyle`. -/
def redRegistry : Registry :=
  ⟨fun _ => (some redStyle, none)⟩

/-- Default globals used as a concrete fixture. -/
def emptyGlobals : Globals :=
  { CWD := "", Home := "", Username := "", UserFullName := "", Hostname := "",
    Status := 0, PreviousCommandDuration := 0, Keymap := "", IsRoot := false }

/-- The directory listing of the `HasExtension` unit test:
`foo.go`, `foo.test.js`, `.gitignore`, `banana`. -/
def testListing : List String :=
  ["foo.go", "foo.test.js", ".gitignore", "banana"]

/-- A concrete context whose template engine rejects every template. -/
def unitCtxFailing : Context Unit :=
  ⟨⟨[], none⟩, nilRegistry, emptyGlobals, failingTemplateEngine Unit⟩

/-- A concrete context with the spec-modelled template engine and no
styles. -/
def unitCtxSpec : Context Unit :=
  ⟨⟨[], none⟩, nilRegistry, emptyGlobals, specTemplateEngine Unit⟩

/-- A concrete context whose style registry fails every lookup. -/
def unitCtxBadStyle : Context Unit :=
  ⟨⟨[], none⟩, emptyRegistry, emptyGlobals, specTemplateEngine Unit⟩

/-- A concrete context whose style registry resolves every name to
`redStyle`. -/
def unitCtxRed : Context Unit :=
  ⟨⟨[], none⟩, redRegistry, emptyGlobals, specTemplateEngine Unit⟩

/-! ## Helper lemmas -/

/-- The indexed loop `WriteAux` visits exactly the bytes of `p` from position
`i` on, in order: it coincides with folding `writeStep` over the suffix
`p.drop i`.  In particular every byte of the slice is consumed exactly once
and all accesses are in bounds. -/
lemma WriteAux_eq_writeLoop (status : statusWriter) (x : Nat) (p : List Nat) (i : Nat) :
    WriteAux status x p i = writeLoop status x (p.drop i) := by
  rw [WriteAux]
  split
  · rename_i h
    rw [List.drop_eq_getElem_cons h]
    rw [WriteAux_eq_writeLoop]
    simp [writeLoop]
  · rename_i h
    rw [List.drop_eq_nil_of_le (by omega)]
    rfl
termination_by p.length - i

/-- `Write` on a whole chunk is the fold of `writeStep` over its bytes (with
the local first-letter variable starting at 0), and returns `n = len p` and a
`nil` error. -/
lemma Write_eq (status : statusWriter) (p : List Nat) :
    status.Write p = (writeLoop status 0 p, p.length, none) := by
  unfold statusWriter.Write
  rw [WriteAux_eq_writeLoop]
  rfl

/-- `executeModule`, characterised by its two phases: resolve the style
(`resolvedStyle`), settle the text and the template diagnostics
(`templatePhase`), then apply the style to non-empty text. -/
lemma executeModule_eq {α : Type} (context : Context α) (config : CommonConfig)
    (data : α) (styleStr : String) (defaultText : String) :
    executeModule context config data styleStr defaultText =
      ({ Text := (match resolvedStyle context styleStr with
            | some st =>
                if (templatePhase context config data defaultText).1 ≠ "" then
                  st.applyGetColors (templatePhase context config data defaultText).1
                else ((templatePhase context config data defaultText).1,
                      CharacterColors.unset, CharacterColors.unset)
            | none => ((templatePhase context config data defaultText).1,
                       CharacterColors.unset, CharacterColors.unset)).1,
         Data := data,
         StartStyle := (match resolvedStyle context styleStr with
            | some st =>
                if (templatePhase context config data defaultText).1 ≠ "" then
                  st.applyGetColors (templatePhase context config data defaultText).1
                else ((templatePhase context config data defaultText).1,
                      CharacterColors.unset, CharacterColors.unset)
            | none => ((templatePhase context config data defaultText).1,
                       CharacterColors.unset, CharacterColors.unset)).2.1,
         EndStyle := (match resolvedStyle context styleStr with
            | some st =>
                if (templatePhase context config data defaultText).1 ≠ "" then
                  st.applyGetColors (templatePhase context config data defaultText).1
                else ((templatePhase context config data defaultText).1,
                      CharacterColors.unset, CharacterColors.unset)
            | none => ((templatePhase context config data defaultText).1,
                       CharacterColors.unset, CharacterColors.unset)).2.2 },
       { warnings := (match (context.Styles.get styleStr).2 with
            | some e => [e]
            | none => []) ++ (templatePhase context config data defaultText).2.1,
         printed := (templatePhase context config data defaultText).2.2 }) := rfl

/-- With no template configured, the template phase keeps the default text
and emits no diagnostics. -/
lemma templatePhase_no_template {α : Type} (context : Context α)
    (config : CommonConfig) (data : α) (defaultText : String)
    (h : config.Template = "") :
    templatePhase context config data defaultText = (defaultText, [], []) := by
  unfold templatePhase
  rw [if_neg]
  simp [h]

/-- When the configured template fails to compile or its evaluation fails,
the template phase keeps the default text and emits exactly one
diagnostic. -/
lemma templatePhase_failure {α : Type} (context : Context α)
    (config : CommonConfig) (data : α) (defaultText : String)
    (hT : config.Template ≠ "")
    (hfail : ¬ ∃ tmpl s, context.modtemplate.CompileTemplate config.Template = .ok tmpl
        ∧ tmpl { Data := data, Global := context.Globals, Text := defaultText } = .ok s) :
    (templatePhase context config data defaultText).1 = defaultText
    ∧ (templatePhase context config data defaultText).2.1.length
        + (templatePhase context config data defaultText).2.2.length = 1 := by
  unfold templatePhase
  rw [if_pos hT]
  cases hc : context.modtemplate.CompileTemplate config.Template with
  | error e => simp
  | ok tmpl =>
    cases he : tmpl { Data := data, Global := context.Globals, Text := defaultText } with
    | error e => simp [he]
    | ok s => exact absurd ⟨tmpl, s, hc, he⟩ hfail

example : (statusWriter.Write default (strToBytes "M  file1\x00")).1.stats =
    { index := { added := 0, modified := 1, deleted := 0 },
      files := { added := 0, modified := 0, deleted := 0 },
      unmerged := 0 } := by
  rw [Write_eq]; decide

example :
    (writeChunks default [strToBytes "M", strToBytes "  file1\x00"]).stats =
    { index := { added := 0, modified := 0, deleted := 0 },
      files := { added := 0, modified := 0, deleted := 0 },
      unmerged := 0 } := by
  simp only [writeChunks, List.foldl, Write_eq]; decide

/-- Skipping the path bytes: from any state past the two status letters
(`linePos ≥ 2`), a NUL-free path followed by the terminator only resets
`linePos` to 0 and leaves the counters untouched. -/
lemma writeLoop_skip_path (path : List Nat) (st : statusWriter) (x0 : Nat)
    (rest : List Nat) (h2 : 2 ≤ st.linePos) (hp : (0 : Nat) ∉ path) :
    writeLoop st x0 (path ++ 0 :: rest) = writeLoop ⟨0, st.stats⟩ x0 rest := by
  induction path generalizing st with
  | nil =>
      have h0 : ¬ st.linePos = 0 := by omega
      have h1 : ¬ st.linePos = 1 := by omega
      simp [writeLoop, writeStep, h0, h1]
  | cons b path ih =>
      have hb : ¬ b = 0 := by
        simp at hp
        exact fun h => hp.1 h.symm
      have h0 : ¬ st.linePos = 0 := by omega
      have h1 : ¬ st.linePos = 1 := by omega
      have hp' : (0 : Nat) ∉ path := by simp at hp; exact hp.2
      simp only [List.cons_append, writeLoop, writeStep, h0, h1, hb,
        if_false, if_neg]
      exact ih _ (by simp; omega) hp'

/-- Processing one complete record from the initial per-record state: the two
status letters are classified, the path and terminator are skipped, and the
parser is back at `linePos = 0` for the rest of the stream. -/
lemma writeLoop_record (st : statusWriter) (x0 x y : Nat) (path : List Nat)
    (rest : List Nat) (h0 : st.linePos = 0) (hp : (0 : Nat) ∉ path) :
    writeLoop st x0 (record x y path ++ rest) =
      writeLoop ⟨0, classify st.stats x y⟩ x rest := by
  obtain ⟨lp, s⟩ := st
  simp only at h0
  subst h0
  have hsplit : record x y path ++ rest = x :: y :: (path ++ 0 :: rest) := by
    simp [record]
  rw [hsplit]
  simp only [writeLoop, writeStep]
  norm_num
  exact writeLoop_skip_path path _ x rest (by norm_num) hp

/-- Classifying one record changes the grand total of the counters by at most
2 (and the total never decreases). -/
lemma classify_total_le (s : GitStats) (x y : Nat) :
    (classify s x y).total ≤ s.total + 2 := by
  unfold classify countStats GitStats.total GitFileStats.total
  split_ifs <;> simp <;> omega

/-- Running a stream of well-formed records from a `linePos = 0` state adds at
most 2 to the counter total per record. -/
lemma writeLoop_records_total (rs : List (Nat × Nat × List Nat))
    (hp : ∀ r ∈ rs, (0 : Nat) ∉ r.2.2) (s : GitStats) (x0 : Nat) :
    (writeLoop ⟨0, s⟩ x0 (encodeRecords rs)).stats.total ≤ s.total + 2 * rs.length := by
  induction rs generalizing s x0 with
  | nil => simp [encodeRecords, writeLoop]
  | cons r rs ih =>
      have hr : (0 : Nat) ∉ r.2.2 := hp r (by simp)
      have hp' : ∀ r ∈ rs, (0 : Nat) ∉ r.2.2 := fun r h => hp r (by simp [h])
      simp only [encodeRecords, List.foldr_cons]
      rw [writeLoop_record _ _ _ _ _ _ rfl hr]
      calc (writeLoop ⟨0, classify s r.1 r.2.1⟩ r.1
              (rs.foldr (fun r acc => record r.1 r.2.1 r.2.2 ++ acc) [])).stats.total
          ≤ (classify s r.1 r.2.1).total + 2 * rs.length := ih hp' _ _
        _ ≤ s.total + 2 + 2 * rs.length := by
              have := classify_total_le s r.1 r.2.1
              omega
        _ = s.total + 2 * (r :: rs).length := by simp [List.length_cons]; ring

/-- `UsernameModule.Execute`, characterised: it is `executeModule` applied to
the username payload, with the style replaced by `RootStyle` exactly when the
user is root and `RootStyle` is non-empty (a root user is always shown, so
the inner `show` guard is redundant for the style choice), and the default
text equal to the username when shown and empty otherwise. -/
lemma UsernameModule.Execute_eq (mod : UsernameModule)
    (context : Context usernameModuleData) :
    mod.Execute context =
      executeModule context mod.CommonConfig
        { username := context.Environment.Getenv "USER",
          IsRoot := context.Globals.IsRoot,
          IsSSH := context.Environment.HasSomeEnv
            ["SSH_CLIENT", "SSH_CONNECTION", "SSH_TTY"],
          Show := context.Environment.HasSomeEnv
              ["SSH_CLIENT", "SSH_CONNECTION", "SSH_TTY"]
            || context.Globals.IsRoot || mod.ShowAlways }
        (if context.Globals.IsRoot && (mod.RootStyle != "") then mod.RootStyle
         else mod.CommonConfig.Style)
        (if context.Environment.HasSomeEnv
              ["SSH_CLIENT", "SSH_CONNECTION", "SSH_TTY"]
            || context.Globals.IsRoot || mod.ShowAlways then
           usernameModuleData.Username
             { username := context.Environment.Getenv "USER",
               IsRoot := context.Globals.IsRoot,
               IsSSH := context.Environment.HasSomeEnv
                 ["SSH_CLIENT", "SSH_CONNECTION", "SSH_TTY"],
               Show := context.Environment.HasSomeEnv
                   ["SSH_CLIENT", "SSH_CONNECTION", "SSH_TTY"]
                 || context.Globals.IsRoot || mod.ShowAlways }
             context.Environment.currentUser
         else "") := by
  unfold UsernameModule.Execute
  cases hroot : context.Globals.IsRoot <;> simp [hroot]

/-! ## Claims -/

/-- C2.  The classification rule of the status parser: a record whose two
status letters are `x` and `y` increments `Unmerged` on a delete/delete or
add/add conflict or when either letter is `U`; otherwise an untracked record
(`x = '?'`) increments the worktree `Added` counter; otherwise `x` is mapped
into the index counters and `y` into the worktree counters by `countStats`,
which sends `M`, `R` and `C` to `Modified`, `A` to `Added` and `D` to
`Deleted` (any other letter changes nothing).  Consequently the stream
`"M  file1\0?? file2\0UU file3\0"` yields `Index.Modified = 1`,
`Files.Added = 1`, `Unmerged = 1`, everything else 0. -/
theorem statusWriter_classification :
    (∀ s x y, ((x = 'D'.toNat ∧ y = 'D'.toNat) ∨ (x = 'A'.toNat ∧ y = 'A'.toNat)
        ∨ x = 'U'.toNat ∨ y = 'U'.toNat) →
        classify s x y = { s with unmerged := s.unmerged + 1 })
    ∧ (∀ s x y, ¬((x = 'D'.toNat ∧ y = 'D'.toNat) ∨ (x = 'A'.toNat ∧ y = 'A'.toNat)
        ∨ x = 'U'.toNat ∨ y = 'U'.toNat) → x = '?'.toNat →
        classify s x y =
          { s with files := { s.files with added := s.files.added + 1 } })
    ∧ (∀ s x y, ¬((x = 'D'.toNat ∧ y = 'D'.toNat) ∨ (x = 'A'.toNat ∧ y = 'A'.toNat)
        ∨ x = 'U'.toNat ∨ y = 'U'.toNat) → ¬(x = '?'.toNat) →
        classify s x y =
          { s with index := countStats s.index x, files := countStats s.files y })
    ∧ (∀ f z, countStats f z =
        { added := f.added + (if z = 'A'.toNat then 1 else 0),
          modified :=
            f.modified + (if z = 'M'.toNat ∨ z = 'R'.toNat ∨ z = 'C'.toNat then 1 else 0),
          deleted := f.deleted + (if z = 'D'.toNat then 1 else 0) })
    ∧ (statusWriter.Write default
        (strToBytes "M  file1\x00?? file2\x00UU file3\x00")).1.stats =
        { index := { added := 0, modified := 1, deleted := 0 },
          files := { added := 1, modified := 0, deleted := 0 },
          unmerged := 1 } := by
  refine ⟨?_, ?_, ?_, ?_, ?_⟩
  · intro s x y h
    rw [classify, if_pos h]
  · intro s x y h hq
    rw [classify, if_neg h, if_pos hq]
  · intro s x y h hq
    rw [classify, if_neg h, if_neg hq]
  · intro f z
    cases f
    unfold countStats
    split_ifs <;> simp_all <;> omega
  · rw [Write_eq]; decide

/-- C2 witness: the classification rule applied at concrete letters — an
`UU` record is unmerged, a `??` record is an untracked worktree addition, and
an `M␣` record counts an index modification. -/
theorem statusWriter_classification_witness :
    classify default 'U'.toNat 'U'.toNat = { (default : GitStats) with unmerged := 1 }
    ∧ classify default '?'.toNat '?'.toNat =
        { (default : GitStats) with files := { added := 1, modified := 0, deleted := 0 } }
    ∧ classify default 'M'.toNat ' '.toNat =
        { (default : GitStats) with index := { added := 0, modified := 1, deleted := 0 } } :=
  ⟨statusWriter_classification.1 default 'U'.toNat 'U'.toNat (by decide),
   statusWriter_classification.2.1 default '?'.toNat '?'.toNat (by decide) (by decide),
   statusWriter_classification.2.2.1 default 'M'.toNat ' '.toNat (by decide) (by decide)⟩

/-- C9.  `statusWriter.Write` is total and never signals failure: for every
input slice `p` and every reachable parser state, it consumes the entire
slice byte by byte in order (it equals the fold of the per-byte step over
`p`), returns `n = len p`, and returns a `nil` error. -/
theorem statusWriter_Write_total (status : statusWriter) (p : List Nat) :
    (status.Write p).1 = writeLoop status 0 p
    ∧ (status.Write p).2.1 = p.length
    ∧ (status.Write p).2.2 = none := by
  rw [Write_eq]
  exact ⟨rfl, rfl, rfl⟩

/-- C3 fails on the code: splitting the single-record stream `"M  file1\0"`
into the chunks `"M"` and `"  file1\0"` loses the index letter — the local
variable `x` of `Write` is not part of the persistent writer state — so the
chunked run counts nothing while the single-shot run counts one index
modification. -/
theorem statusWriter_chunking_counterexample :
    (writeChunks default [strToBytes "M", strToBytes "  file1\x00"]).stats =
      { index := { added := 0, modified := 0, deleted := 0 },
        files := { added := 0, modified := 0, deleted := 0 },
        unmerged := 0 }
    ∧ (statusWriter.Write default (strToBytes "M  file1\x00")).1.stats =
      { index := { added := 0, modified := 1, deleted := 0 },
        files := { added := 0, modified := 0, deleted := 0 },
        unmerged := 0 }
    ∧ (writeChunks default [strToBytes "M", strToBytes "  file1\x00"]).stats ≠
      (statusWriter.Write default (strToBytes "M  file1\x00")).1.stats := by
  refine ⟨?_, ?_, ?_⟩ <;>
    simp only [writeChunks, List.foldl, Write_eq] <;> decide

/-- C1 fails on the code: the well-formed single record `"MM f\0"` (modified
in the index *and* modified in the work tree) increments two counter buckets,
`Index.Modified` and `Files.Modified`, so the sum of all counters is 2 while
only one record was seen. -/
theorem gitStats_sum_counterexample :
    countRecords (strToBytes "MM f\x00") = 1
    ∧ (statusWriter.Write default (strToBytes "MM f\x00")).1.stats.index.modified = 1
    ∧ (statusWriter.Write default (strToBytes "MM f\x00")).1.stats.files.modified = 1
    ∧ (statusWriter.Write default (strToBytes "MM f\x00")).1.stats.total = 2
    ∧ (statusWriter.Write default (strToBytes "MM f\x00")).1.stats.total ≠
        countRecords (strToBytes "MM f\x00") := by
  refine ⟨by decide, ?_, ?_, ?_, ?_⟩ <;> rw [Write_eq] <;> decide

/-- C1, amended.  Each record is classified into exactly one of three
branches: an unmerged record increments exactly the `Unmerged` counter, an
untracked record increments exactly the worktree `Added` counter, and any
other record leaves `Unmerged` unchanged while incrementing at most one index
counter and at most one worktree counter — possibly one of each, possibly
neither.  Hence over any stream of well-formed records (NUL-free paths) fed
to a fresh writer, the sum of all `Index`, `Files` and `Unmerged` counters is
at most twice the number of records seen. -/
theorem gitStats_buckets_amended :
    (∀ s x y,
      classify s x y = { s with unmerged := s.unmerged + 1 }
      ∨ classify s x y = { s with files := { s.files with added := s.files.added + 1 } }
      ∨ ((classify s x y).unmerged = s.unmerged
          ∧ (classify s x y).files.added + (classify s x y).files.modified
              + (classify s x y).files.deleted
              ≤ s.files.added + s.files.modified + s.files.deleted + 1
          ∧ (classify s x y).index.added + (classify s x y).index.modified
              + (classify s x y).index.deleted
              ≤ s.index.added + s.index.modified + s.index.deleted + 1))
    ∧ ∀ rs : List (Nat × Nat × List Nat), (∀ r ∈ rs, (0 : Nat) ∉ r.2.2) →
        (statusWriter.Write default (encodeRecords rs)).1.stats.total ≤ 2 * rs.length := by
  constructor
  · intro s x y
    unfold classify countStats
    split_ifs <;> simp_all <;> omega
  · intro rs hp
    rw [Write_eq]
    have hd : (default : statusWriter) = ⟨0, (default : GitStats)⟩ := rfl
    rw [hd]
    have h := writeLoop_records_total rs hp (default : GitStats) 0
    have h0 : (default : GitStats).total = 0 := rfl
    rw [h0] at h
    simpa using h

/-- C1 amended witness: a fresh writer fed the single well-formed record
`"MM f\0"` ends with counter total at most 2. -/
theorem gitStats_buckets_amended_witness :
    (statusWriter.Write default
        (encodeRecords [('M'.toNat, 'M'.toNat, ['f'.toNat])])).1.stats.total ≤ 2 * 1 :=
  gitStats_buckets_amended.2 [('M'.toNat, 'M'.toNat, ['f'.toNat])] (by decide)

/-- C4.  When the configured template fails — it does not compile, or its
evaluation over `{Text := defaultText, Data := data, Global := Globals}`
returns an error — module execution is not aborted: the returned
`ModuleResult` is exactly the one the module would produce with no template
configured (so `Text` falls back to the variant's default text, with the
resolved style, if any, still applied), and exactly one extra diagnostic is
logged compared to that run. -/
theorem executeModule_template_failure {α : Type} (context : Context α)
    (config : CommonConfig) (data : α) (styleStr : String) (defaultText : String)
    (hT : config.Template ≠ "")
    (hfail : ¬ ∃ tmpl s, context.modtemplate.CompileTemplate config.Template = .ok tmpl
        ∧ tmpl { Data := data, Global := context.Globals, Text := defaultText } = .ok s) :
    (executeModule context config data styleStr defaultText).1 =
      (executeModule context { config with Template := "" } data styleStr defaultText).1
    ∧ (executeModule context config data styleStr defaultText).2.warnings.length
        + (executeModule context config data styleStr defaultText).2.printed.length
      = (executeModule context { config with Template := "" } data styleStr defaultText).2.warnings.length
        + (executeModule context { config with Template := "" } data styleStr defaultText).2.printed.length
        + 1 := by
  have h1 := templatePhase_failure context config data defaultText hT hfail
  have h2 := templatePhase_no_template context { config with Template := "" } data defaultText rfl
  rw [executeModule_eq, executeModule_eq]
  constructor
  · simp only [h1.1, h2]
  · simp only [h2, List.length_append]
    have := h1.2
    simp only [List.length_nil]
    omega

/-- C4 witness: with an engine that rejects every template, a module
configured with template `"x"` produces the same `ModuleResult` as with no
template, plus one diagnostic. -/
theorem executeModule_template_failure_witness :
    (executeModule unitCtxFailing ⟨"", "x"⟩ () "" "hi").1 =
      (executeModule unitCtxFailing { (⟨"", "x"⟩ : CommonConfig) with Template := "" } () "" "hi").1
    ∧ (executeModule unitCtxFailing ⟨"", "x"⟩ () "" "hi").2.warnings.length
        + (executeModule unitCtxFailing ⟨"", "x"⟩ () "" "hi").2.printed.length
      = (executeModule unitCtxFailing { (⟨"", "x"⟩ : CommonConfig) with Template := "" } () "" "hi").2.warnings.length
        + (executeModule unitCtxFailing { (⟨"", "x"⟩ : CommonConfig) with Template := "" } () "" "hi").2.printed.length
        + 1 :=
  executeModule_template_failure unitCtxFailing ⟨"", "x"⟩ () "" "hi"
    (by decide)
    (by simp [unitCtxFailing, failingTemplateEngine])

/-- C5.  When the registry cannot resolve the module's style name, execution
still completes with a `ModuleResult`: the result is exactly the one produced
with a registry that resolves no style at all (the documented fallback: the
text stays undecorated and the boundary colours are unset), and the lookup
error is recorded as a warning. -/
theorem executeModule_style_failure {α : Type} (context : Context α)
    (config : CommonConfig) (data : α) (styleStr : String) (defaultText : String)
    (e : String) (he : (context.Styles.get styleStr).2 = some e) :
    (executeModule context config data styleStr defaultText).1 =
      (executeModule { context with Styles := nilRegistry } config data styleStr defaultText).1
    ∧ e ∈ (executeModule context config data styleStr defaultText).2.warnings
    ∧ (executeModule context config data styleStr defaultText).1.StartStyle = CharacterColors.unset
    ∧ (executeModule context config data styleStr defaultText).1.EndStyle = CharacterColors.unset := by
  have hr : resolvedStyle context styleStr = none := by
    unfold resolvedStyle
    rw [he]
    simp
  have hr' : resolvedStyle { context with Styles := nilRegistry } styleStr = none := by
    unfold resolvedStyle nilRegistry
    simp
  have hph : templatePhase { context with Styles := nilRegistry } config data defaultText
      = templatePhase context config data defaultText := rfl
  rw [executeModule_eq, executeModule_eq, hr, hr', hph, he]
  simp

/-- C5 witness: a module asking for the unresolvable style `"bogus"` renders
exactly as with no style, with the lookup error recorded as a warning and
unset boundary colours. -/
theorem executeModule_style_failure_witness :
    (executeModule unitCtxBadStyle ⟨"bogus", ""⟩ () "bogus" "hi").1 =
      (executeModule { unitCtxBadStyle with Styles := nilRegistry } ⟨"bogus", ""⟩ () "bogus" "hi").1
    ∧ "unknown style bogus" ∈ (executeModule unitCtxBadStyle ⟨"bogus", ""⟩ () "bogus" "hi").2.warnings
    ∧ (executeModule unitCtxBadStyle ⟨"bogus", ""⟩ () "bogus" "hi").1.StartStyle = CharacterColors.unset
    ∧ (executeModule unitCtxBadStyle ⟨"bogus", ""⟩ () "bogus" "hi").1.EndStyle = CharacterColors.unset :=
  executeModule_style_failure unitCtxBadStyle ⟨"bogus", ""⟩ () "bogus" "hi"
    "unknown style bogus" rfl

/-- C6.  Template round-trip: when the configured template is exactly the
text interpolation (`textTemplateSrc`) and the engine obeys the round-trip
law for it, the module's result is exactly the one it would produce with no
template configured; in particular, when no style resolves, the returned
`Text` is the variant's default text unchanged. -/
theorem executeModule_template_roundtrip {α : Type} (context : Context α)
    (config : CommonConfig) (data : α) (styleStr : String) (defaultText : String)
    (tmpl : TemplateData α → Except String String)
    (hT : config.Template = textTemplateSrc)
    (hc : context.modtemplate.CompileTemplate textTemplateSrc = .ok tmpl)
    (hrt : ∀ d, tmpl d = .ok d.Text) :
    (executeModule context config data styleStr defaultText).1 =
      (executeModule context { config with Template := "" } data styleStr defaultText).1
    ∧ (resolvedStyle context styleStr = none →
        (executeModule context config data styleStr defaultText).1.Text = defaultText) := by
  have hph : templatePhase context config data defaultText = (defaultText, [], []) := by
    unfold templatePhase
    rw [if_pos (by rw [hT]; decide), hT, hc]
    simp [hrt]
  have h2 := templatePhase_no_template context { config with Template := "" } data defaultText rfl
  constructor
  · rw [executeModule_eq, executeModule_eq, hph, h2]
  · intro hr
    rw [executeModule_eq, hr, hph]

/-- C6 witness: with the spec-modelled engine, a module configured with the
text-interpolation template and no resolvable style returns exactly the
default text `"jwalton"`. -/
theorem executeModule_template_roundtrip_witness :
    ((executeModule unitCtxSpec ⟨"", textTemplateSrc⟩ () "" "jwalton").1 =
      (executeModule unitCtxSpec { (⟨"", textTemplateSrc⟩ : CommonConfig) with Template := "" } () "" "jwalton").1)
    ∧ (executeModule unitCtxSpec ⟨"", textTemplateSrc⟩ () "" "jwalton").1.Text = "jwalton" :=
  have h := executeModule_template_roundtrip unitCtxSpec ⟨"", textTemplateSrc⟩ () "" "jwalton"
    (fun d => .ok d.Text) rfl (by simp [unitCtxSpec, specTemplateEngine]) (fun _ => rfl)
  ⟨h.1, h.2 rfl⟩

/-- C7.  Boundary colours are captured exactly when a style resolved and the
text to render is non-empty: when no style resolved or the text is empty, the
returned `Text` is the undecorated text and `StartStyle`/`EndStyle` are the
unset (zero) `CharacterColors`; when a style resolved and the text is
non-empty, the returned `Text`, `StartStyle` and `EndStyle` are exactly the
style application's decorated text and boundary colours. -/
theorem executeModule_style_boundary {α : Type} (context : Context α)
    (config : CommonConfig) (data : α) (styleStr : String) (defaultText : String) :
    ((resolvedStyle context styleStr = none
        ∨ (templatePhase context config data defaultText).1 = "") →
      (executeModule context config data styleStr defaultText).1.Text =
          (templatePhase context config data defaultText).1
        ∧ (executeModule context config data styleStr defaultText).1.StartStyle = CharacterColors.unset
        ∧ (executeModule context config data styleStr defaultText).1.EndStyle = CharacterColors.unset)
    ∧ ∀ st, resolvedStyle context styleStr = some st →
        (templatePhase context config data defaultText).1 ≠ "" →
        ((executeModule context config data styleStr defaultText).1.Text,
         (executeModule context config data styleStr defaultText).1.StartStyle,
         (executeModule context config data styleStr defaultText).1.EndStyle)
          = st.applyGetColors (templatePhase context config data defaultText).1 := by
  constructor
  · intro h
    rw [executeModule_eq]
    rcases h with h | h
    · rw [h]
      exact ⟨rfl, rfl, rfl⟩
    · cases hr : resolvedStyle context styleStr with
      | none => exact ⟨rfl, rfl, rfl⟩
      | some st => simp [h]
  · intro st hr ht
    rw [executeModule_eq, hr]
    simp only [if_pos ht]

/-- C7 witness: with no resolvable style the default text `"hello"` comes
back undecorated with unset colours, and with a resolving registry the
non-empty text `"hi"` comes back exactly as `redStyle` decorates it. -/
theorem executeModule_style_boundary_witness :
    ((executeModule unitCtxSpec ⟨"", ""⟩ () "" "hello").1.Text =
        (templatePhase unitCtxSpec ⟨"", ""⟩ () "hello").1
      ∧ (executeModule unitCtxSpec ⟨"", ""⟩ () "" "hello").1.StartStyle = CharacterColors.unset
      ∧ (executeModule unitCtxSpec ⟨"", ""⟩ () "" "hello").1.EndStyle = CharacterColors.unset)
    ∧ ((executeModule unitCtxRed ⟨"red", ""⟩ () "red" "hi").1.Text,
       (executeModule unitCtxRed ⟨"red", ""⟩ () "red" "hi").1.StartStyle,
       (executeModule unitCtxRed ⟨"red", ""⟩ () "red" "hi").1.EndStyle)
        = redStyle.applyGetColors (templatePhase unitCtxRed ⟨"red", ""⟩ () "hi").1 :=
  ⟨(executeModule_style_boundary unitCtxSpec ⟨"", ""⟩ () "" "hello").1 (Or.inl rfl),
   (executeModule_style_boundary unitCtxRed ⟨"red", ""⟩ () "red" "hi").2 redStyle rfl
     (by decide)⟩

/-- C8.  `HasExtension` accepts its argument with or without a leading dot
and matches single and compound suffixes case-sensitively: any listing
containing `foo.go` matches `"go"` and `".go"`, any listing containing
`foo.test.js` matches `"test.js"` and `".test.js"`; against the test listing,
the dotfile `.gitignore` yields no match for `"gitignore"`/`".gitignore"`
(it has no extension), and `"txt"`/`".txt"` match no file. -/
theorem HasExtension_spec :
    (∀ files : List String, "foo.go" ∈ files →
        HasExtension files "go" = true ∧ HasExtension files ".go" = true)
    ∧ (∀ files : List String, "foo.test.js" ∈ files →
        HasExtension files "test.js" = true ∧ HasExtension files ".test.js" = true)
    ∧ HasExtension testListing "gitignore" = false
    ∧ HasExtension testListing ".gitignore" = false
    ∧ HasExtension testListing "txt" = false
    ∧ HasExtension testListing ".txt" = false := by
  refine ⟨?_, ?_, by decide, by decide, by decide, by decide⟩
  · intro files h
    exact ⟨List.any_eq_true.mpr ⟨"foo.go", h, by decide⟩,
           List.any_eq_true.mpr ⟨"foo.go", h, by decide⟩⟩
  · intro files h
    exact ⟨List.any_eq_true.mpr ⟨"foo.test.js", h, by decide⟩,
           List.any_eq_true.mpr ⟨"foo.test.js", h, by decide⟩⟩

/-- C8 witness: the assertions of the unit test evaluated on its directory
listing. -/
theorem HasExtension_spec_witness :
    (HasExtension testListing "go" = true ∧ HasExtension testListing ".go" = true)
    ∧ (HasExtension testListing "test.js" = true
        ∧ HasExtension testListing ".test.js" = true) :=
  ⟨HasExtension_spec.1 testListing (by decide),
   HasExtension_spec.2.1 testListing (by decide)⟩

/-- C10.  The username module is hidden by default: when the user is not
root, no SSH environment variable is set and `ShowAlways` is off, the module
computes an empty default text, so with no configured template the result
text is empty and the boundary colours are unset, while the result payload
still carries `Username`, `IsRoot`, `IsSSH` and `Show = false`.  Moreover,
for every context and configuration, `Execute` hands `executeModule` a style
in which `RootStyle` replaces the configured `Style` exactly when the user is
root and `RootStyle` is non-empty. -/
theorem UsernameModule_hidden_by_default :
    (∀ (mod : UsernameModule) (context : Context usernameModuleData),
      context.Globals.IsRoot = false →
      context.Environment.HasSomeEnv ["SSH_CLIENT", "SSH_CONNECTION", "SSH_TTY"] = false →
      mod.ShowAlways = false →
      mod.CommonConfig.Template = "" →
      (mod.Execute context).1.Text = ""
      ∧ (mod.Execute context).1.StartStyle = CharacterColors.unset
      ∧ (mod.Execute context).1.EndStyle = CharacterColors.unset
      ∧ (mod.Execute context).1.Data =
          { username := context.Environment.Getenv "USER",
            IsRoot := false, IsSSH := false, Show := false })
    ∧ ∀ (mod : UsernameModule) (context : Context usernameModuleData),
        mod.Execute context =
          executeModule context mod.CommonConfig
            { username := context.Environment.Getenv "USER",
              IsRoot := context.Globals.IsRoot,
              IsSSH := context.Environment.HasSomeEnv
                ["SSH_CLIENT", "SSH_CONNECTION", "SSH_TTY"],
              Show := context.Environment.HasSomeEnv
                  ["SSH_CLIENT", "SSH_CONNECTION", "SSH_TTY"]
                || context.Globals.IsRoot || mod.ShowAlways }
            (if context.Globals.IsRoot && (mod.RootStyle != "") then mod.RootStyle
             else mod.CommonConfig.Style)
            (if context.Environment.HasSomeEnv
                  ["SSH_CLIENT", "SSH_CONNECTION", "SSH_TTY"]
                || context.Globals.IsRoot || mod.ShowAlways then
               usernameModuleData.Username
                 { username := context.Environment.Getenv "USER",
                   IsRoot := context.Globals.IsRoot,
                   IsSSH := context.Environment.HasSomeEnv
                     ["SSH_CLIENT", "SSH_CONNECTION", "SSH_TTY"],
                   Show := context.Environment.HasSomeEnv
                       ["SSH_CLIENT", "SSH_CONNECTION", "SSH_TTY"]
                     || context.Globals.IsRoot || mod.ShowAlways }
                 context.Environment.currentUser
             else "") := by
  constructor
  · intro mod context hroot hssh hsa htmpl
    rw [UsernameModule.Execute_eq, hroot, hssh, hsa]
    simp only [Bool.or_self, Bool.or_false, Bool.false_and, Bool.and_false,
      if_false, Bool.false_eq_true, ite_false]
    have hph := templatePhase_no_template context mod.CommonConfig
      ({ username := context.Environment.Getenv "USER",
         IsRoot := false, IsSSH := false, Show := false } : usernameModuleData)
      "" htmpl
    rw [executeModule_eq, hph]
    cases resolvedStyle context mod.CommonConfig.Style with
    | none => exact ⟨rfl, rfl, rfl, rfl⟩
    | some st => exact ⟨rfl, rfl, rfl, rfl⟩
  · intro mod context
    exact UsernameModule.Execute_eq mod context

/-- C10 witness: in a concrete non-root, non-SSH context with `ShowAlways`
off and no template, the username module renders empty text with unset
colours while its payload still carries the username from `USER`. -/
theorem UsernameModule_hidden_by_default_witness :
    ((⟨⟨"blue", ""⟩, false, "red"⟩ : UsernameModule).Execute
        ⟨⟨[("USER", "jwalton")], some "jwalton"⟩, nilRegistry, emptyGlobals,
         specTemplateEngine usernameModuleData⟩).1.Text = ""
    ∧ ((⟨⟨"blue", ""⟩, false, "red"⟩ : UsernameModule).Execute
        ⟨⟨[("USER", "jwalton")], some "jwalton"⟩, nilRegistry, emptyGlobals,
         specTemplateEngine usernameModuleData⟩).1.StartStyle = CharacterColors.unset
    ∧ ((⟨⟨"blue", ""⟩, false, "red"⟩ : UsernameModule).Execute
        ⟨⟨[("USER", "jwalton")], some "jwalton"⟩, nilRegistry, emptyGlobals,
         specTemplateEngine usernameModuleData⟩).1.EndStyle = CharacterColors.unset
    ∧ ((⟨⟨"blue", ""⟩, false, "red"⟩ : UsernameModule).Execute
        ⟨⟨[("USER", "jwalton")], some "jwalton"⟩, nilRegistry, emptyGlobals,
         specTemplateEngine usernameModuleData⟩).1.Data =
        { username := (⟨⟨[("USER", "jwalton")], some "jwalton"⟩, nilRegistry, emptyGlobals,
            specTemplateEngine usernameModuleData⟩ : Context usernameModuleData).Environment.Getenv "USER",
          IsRoot := false, IsSSH := false, Show := false } :=
  UsernameModule_hidden_by_default.1
    ⟨⟨"blue", ""⟩, false, "red"⟩
    ⟨⟨[("USER", "jwalton")], some "jwalton"⟩, nilRegistry, emptyGlobals,
     specTemplateEngine usernameModuleData⟩
    rfl (by decide) rfl rfl
